import Mathlib

/-!
Shallow embedding of the NanoVault server (a Bitwarden-compatible
password-manager backend) and proofs about its session authority,
credential record store, and vault object/index consistency protocol.

Modelling conventions:
- TypeScript strings are Lean `String`s; machine time is a `Nat` of Unix
  seconds for JWT expiry and an ISO `String` where the code only stores it.
- `crypto.randomUUID()` and `new Date().toISOString()` are modelled as
  explicit oracle arguments (`genId`, `now`, ...) passed to each handler.
- SHA-256 (`crypto.subtle.digest`) and the HMAC of `hono/jwt` are modelled
  as function parameters `sha256hex` and `mac`; no claim depends on their
  internals, only on how the code composes them.
- The Cloudflare KV namespace and the R2 bucket are association lists with
  overwrite-on-put semantics; values are typed (`KVValue`, `BlobValue`)
  because every write path of the code serialises exactly one record type
  per key shape, so `JSON.parse` of a stored value returns the stored record.
- `Promise.all([...])` is sequenced in array order; handlers are one
  logical invocation (the repository's stated concurrency model).
-/

namespace NanoVault

/-- Account record (`UserData` in `src/types.ts`). Fields not read or
written by any embedded handler keep their type but are optional with the
registration-time defaults. `name` is a `String` (registration always
stores one, defaulting to the empty string). -/
structure UserData where
  id : String
  email : String
  masterPasswordHash : String
  masterPasswordHint : Option String := none
  key : String
  kdf : Nat := 0
  kdfIterations : Nat := 600000
  name : String := ""
  publicKey : Option String := none
  encryptedPrivateKey : Option String := none
  securityStamp : String
  culture : String := "en-US"
  emailVerified : Bool := true
  createdAt : String := ""
  updatedAt : String := ""
  equivalentDomains : Option (List (List String)) := none
  excludedGlobalEquivalentDomains : Option (List Nat) := none
deriving DecidableEq

/-- Advisory vault index (`VaultIndex` in `src/types.ts`). -/
structure VaultIndex where
  cipherIds : List String
  folderIds : List String
  revision : String
deriving DecidableEq

/-- Typed values held by the key-value store: `user:{email}` keys hold
account records, `vault_index:{userId}` keys hold vault indices. -/
inductive KVValue where
  | user (u : UserData)
  | index (idx : VaultIndex)
deriving DecidableEq

/-- Generic association-list `get(key)`: first binding for the key. Both
stores (KV namespace and blob bucket) expose this operation. -/
def alistGet {α : Type} : List (String × α) → String → Option α
  | [], _ => none
  | (k, v) :: rest, key => if k = key then some v else alistGet rest key

/-- Generic association-list `put(key, value)`: overwrite any previous
binding for the key. -/
def alistPut {α : Type} (l : List (String × α)) (key : String) (v : α) :
    List (String × α) :=
  (key, v) :: l.filter (fun e => e.1 != key)

/-- Generic association-list `delete(key)`. -/
def alistDelete {α : Type} (l : List (String × α)) (key : String) :
    List (String × α) :=
  l.filter (fun e => e.1 != key)

/-- The key-value store (Cloudflare KV / Aliyun EdgeKV), as an association
list; `kvPut` overwrites. -/
abbrev KVStore := List (String × KVValue)

/-- `kv.get(key)`. -/
def kvGet (kv : KVStore) (key : String) : Option KVValue := alistGet kv key

/-- `kv.put(key, value)`. -/
def kvPut (kv : KVStore) (key : String) (v : KVValue) : KVStore :=
  alistPut kv key v

/-- JavaScript `toLowerCase()`, written as a character map so that it is
kernel-computable (Lean's own `String.toLower` maps the same
`Char.toLower` over the characters). -/
def toLowerStr (s : String) : String := String.mk (s.data.map Char.toLower)

/-- Character-list test that `pre` is a leading segment of a second list. -/
def listIsPre : List Char → List Char → Bool
  | [], _ => true
  | _ :: _, [] => false
  | a :: as, b :: bs => a == b && listIsPre as bs

/-- JavaScript `key.startsWith(pre)`, written over character lists so that
it is kernel-computable. -/
def strStartsWith (s pre : String) : Bool := listIsPre pre.data s.data

/-- `getUser` from `src/storage/kv.ts`: read `user:{email.toLowerCase()}`. -/
def getUser (kv : KVStore) (email : String) : Option UserData :=
  match kvGet kv ("user:" ++ toLowerStr email) with
  | some (KVValue.user u) => some u
  | _ => none

/-- `putUser` from `src/storage/kv.ts`: write `user:{email.toLowerCase()}`. -/
def putUser (kv : KVStore) (u : UserData) : KVStore :=
  kvPut kv ("user:" ++ toLowerStr u.email) (KVValue.user u)

/-- `getVaultIndex`: read `vault_index:{userId}`, defaulting to an empty
index stamped with the current time. -/
def getVaultIndex (kv : KVStore) (userId : String) (now : String) : VaultIndex :=
  match kvGet kv ("vault_index:" ++ userId) with
  | some (KVValue.index idx) => idx
  | _ => { cipherIds := [], folderIds := [], revision := now }

/-- `putVaultIndex`: bump `revision` to now and write the index. -/
def putVaultIndex (kv : KVStore) (userId : String) (idx : VaultIndex) (now : String) : KVStore :=
  kvPut kv ("vault_index:" ++ userId) (KVValue.index { idx with revision := now })

/-- `addCipherToIndex`: append the id unless already present. -/
def addCipherToIndex (kv : KVStore) (userId cipherId : String) (now : String) : KVStore :=
  let idx := getVaultIndex kv userId now
  if cipherId ∈ idx.cipherIds then kv
  else putVaultIndex kv userId { idx with cipherIds := idx.cipherIds ++ [cipherId] } now

/-- `removeCipherFromIndex`: splice out the first occurrence, if any. -/
def removeCipherFromIndex (kv : KVStore) (userId cipherId : String) (now : String) : KVStore :=
  let idx := getVaultIndex kv userId now
  if cipherId ∈ idx.cipherIds then
    putVaultIndex kv userId { idx with cipherIds := idx.cipherIds.erase cipherId } now
  else kv

/-- `addFolderToIndex`: append the folder id unless already present. -/
def addFolderToIndex (kv : KVStore) (userId folderId : String) (now : String) : KVStore :=
  let idx := getVaultIndex kv userId now
  if folderId ∈ idx.folderIds then kv
  else putVaultIndex kv userId { idx with folderIds := idx.folderIds ++ [folderId] } now

/-- JWT claim set. Every claim the code ever writes or reads is a field;
absent claims are `none` (JavaScript `undefined`). `type` is the claim
used by the registration / email-change verification tokens. -/
structure JwtClaims where
  sub : Option String := none
  email : Option String := none
  name : Option String := none
  email_verified : Option Bool := none
  stamp : Option String := none
  token_type : Option String := none
  type : Option String := none
  exp : Nat
deriving DecidableEq

/-- A signed JWT: the claim set plus its signature. -/
structure Token where
  payload : JwtClaims
  sig : String
deriving DecidableEq

def ACCESS_TOKEN_TTL : Nat := 3600

def REFRESH_TOKEN_TTL : Nat := 7 * 24 * 3600

/-- `sign` of `hono/jwt`: attach the MAC of the payload under the secret. -/
def sign (mac : String → JwtClaims → String) (secret : String) (p : JwtClaims) : Token :=
  { payload := p, sig := mac secret p }

/-- `verify` of `hono/jwt`: succeeds iff the signature matches and the
token is not expired (`exp` is at or after the current Unix second). -/
def verify (mac : String → JwtClaims → String) (secret : String) (now : Nat)
    (t : Token) : Option JwtClaims :=
  if t.sig = mac secret t.payload ∧ now ≤ t.payload.exp then some t.payload else none

/-- `buildJwtPayload` from `src/api/auth.ts`. -/
def buildJwtPayload (u : UserData) (ttl : Nat) (tokenType : String) (now : Nat) : JwtClaims :=
  { sub := some u.id
    email := some u.email
    name := some u.name
    email_verified := some true
    stamp := some u.securityStamp
    token_type := some tokenType
    exp := now + ttl }

/-- OAuth2-style error body `{error, error_description?}` returned with
`c.json` by the middleware and the token endpoint. -/
structure OAuthError where
  error : String
  error_description : Option String := none
deriving DecidableEq

/-- Outcome of the JWT middleware for one request. -/
inductive MwResult where
  /-- the `hono/jwt` middleware threw (bad signature or expired token):
  a 401 error response from the library, the handler does not run. -/
  | jwtException
  /-- the middleware returned its own JSON error with this status;
  the handler does not run. -/
  | reject (status : Nat) (body : OAuthError)
  /-- validation passed; the handler runs with this payload. -/
  | ok (payload : JwtClaims)
deriving DecidableEq

/-- `createJwtMiddleware` from `src/utils/auth.ts`: signature and expiry
via `hono/jwt`, then payload-email presence, account existence, and the
security-stamp equality that implements revocation. (The middleware does
not inspect `token_type`.) -/
def createJwtMiddleware (mac : String → JwtClaims → String) (secret : String)
    (kv : KVStore) (now : Nat) (token : Token) : MwResult :=
  match verify mac secret now token with
  | none => MwResult.jwtException
  | some payload =>
    match payload.email with
    | none =>
      MwResult.reject 401 { error := "invalid_token", error_description := some "Invalid token payload" }
    | some email =>
      if email = "" then
        MwResult.reject 401 { error := "invalid_token", error_description := some "Invalid token payload" }
      else
        match getUser kv email with
        | none =>
          MwResult.reject 401 { error := "invalid_token", error_description := some "User not found" }
        | some user =>
          if payload.stamp ≠ some user.securityStamp then
            MwResult.reject 401 { error := "invalid_token", error_description := some "Token has been revoked" }
          else
            MwResult.ok payload

/-- Bitwarden-style error envelope produced by `errorResponse` in
`src/api/auth.ts`, reduced to its message and HTTP status
(`validationErrors` and `errorModel` duplicate the message verbatim). -/
structure ErrorResponse where
  message : String
  status : Nat
deriving DecidableEq

/-- `hashPassword` from `src/api/auth.ts`: SHA-256 of `salt + hash`,
hex-encoded; the digest function is a parameter. -/
def hashPassword (sha256hex : String → String) (masterPasswordHash salt : String) : String :=
  sha256hex (salt ++ masterPasswordHash)

/-- Request body of the password-change endpoint. The PascalCase /
camelCase fallback pairs of the source are collapsed into one field
each. A field is `none` when absent. -/
structure PasswordChangeBody where
  masterPasswordHash : Option String := none
  newMasterPasswordHash : Option String := none
  key : Option String := none
deriving DecidableEq

/-- Outcome of the password-change handler: the empty 200 JSON or an
error envelope. -/
inductive PasswordChangeResult where
  | err (e : ErrorResponse)
  | ok
deriving DecidableEq

/-- `handlePasswordChange` from `src/api/auth.ts`. `payloadEmail` is the
`email` claim of the JWT payload installed by the middleware;
`newSecurityStamp` is the `crypto.randomUUID()` oracle and `nowIso` the
`new Date().toISOString()` oracle. A missing current-password field is
string-coerced to `"undefined"` by JavaScript concatenation inside
`hashPassword`. -/
def handlePasswordChange (sha256hex : String → String) (kv : KVStore)
    (payloadEmail : String) (body : PasswordChangeBody)
    (newSecurityStamp nowIso : String) : PasswordChangeResult × KVStore :=
  match getUser kv payloadEmail with
  | none => (PasswordChangeResult.err { message := "User not found", status := 404 }, kv)
  | some user =>
    let currentHash := body.masterPasswordHash.getD "undefined"
    let incomingHash := hashPassword sha256hex currentHash user.securityStamp
    if user.masterPasswordHash ≠ incomingHash then
      (PasswordChangeResult.err { message := "Invalid current password", status := 400 }, kv)
    else
      let newHash := body.newMasterPasswordHash.getD ""
      let newKey := body.key.getD ""
      if newHash = "" ∨ newKey = "" then
        (PasswordChangeResult.err { message := "New password hash and key required", status := 400 }, kv)
      else
        let user' := { user with
          masterPasswordHash := hashPassword sha256hex newHash newSecurityStamp
          key := newKey
          securityStamp := newSecurityStamp
          updatedAt := nowIso }
        (PasswordChangeResult.ok, putUser kv user')

/-- The account record as rewritten by a successful password change:
new server-side hash under the new stamp, new key blob, rotated stamp,
bumped timestamp. -/
def pwUpdatedUser (sha256hex : String → String) (u : UserData)
    (body : PasswordChangeBody) (newSecurityStamp nowIso : String) : UserData :=
  { u with
    masterPasswordHash :=
      hashPassword sha256hex (body.newMasterPasswordHash.getD "") newSecurityStamp
    key := body.key.getD ""
    securityStamp := newSecurityStamp
    updatedAt := nowIso }

/-- OAuth2 token response built by `buildTokenResponse` in
`src/api/auth.ts` (the constant `userDecryptionOptions` object is
omitted). -/
structure TokenResponse where
  access_token : Token
  expires_in : Nat
  token_type : String
  refresh_token : Token
  key : String
  privateKey : Option String
  kdf : Nat
  kdfIterations : Nat
deriving DecidableEq

/-- `buildTokenResponse` from `src/api/auth.ts`. -/
def buildTokenResponse (u : UserData) (accessToken refreshToken : Token) : TokenResponse :=
  { access_token := accessToken
    expires_in := ACCESS_TOKEN_TTL
    token_type := "Bearer"
    refresh_token := refreshToken
    key := u.key
    privateKey := u.encryptedPrivateKey
    kdf := u.kdf
    kdfIterations := u.kdfIterations }

/-- Outcome of the token endpoint: an OAuth error with HTTP status, or a
token response. -/
inductive TokenResult where
  | err (status : Nat) (body : OAuthError)
  | ok (resp : TokenResponse)
deriving DecidableEq

/-- The `refresh_token` grant of `handleToken` in `src/api/auth.ts`.
A missing `email` claim makes `getUser` throw on
`undefined.toLowerCase()`, caught by the surrounding `catch` — the same
response as the thrown `'User deleted'` for a missing account. The flow
performs no KV write, so the store is returned unchanged. -/
def handleTokenRefresh (mac : String → JwtClaims → String) (secret : String)
    (kv : KVStore) (now : Nat) (refreshToken : Token) : TokenResult × KVStore :=
  match verify mac secret now refreshToken with
  | none =>
    (TokenResult.err 400 { error := "invalid_grant", error_description := some "Invalid or expired refresh token" }, kv)
  | some payload =>
    if payload.token_type ≠ some "refresh" then
      (TokenResult.err 400 { error := "invalid_grant", error_description := some "Invalid token type" }, kv)
    else
      match payload.email with
      | none =>
        (TokenResult.err 400 { error := "invalid_grant", error_description := some "Invalid or expired refresh token" }, kv)
      | some email =>
        match getUser kv email with
        | none =>
          (TokenResult.err 400 { error := "invalid_grant", error_description := some "Invalid or expired refresh token" }, kv)
        | some user =>
          if payload.stamp ≠ some user.securityStamp then
            (TokenResult.err 400 { error := "invalid_grant", error_description := some "Token has been revoked" }, kv)
          else
            let newAccessToken := sign mac secret (buildJwtPayload user ACCESS_TOKEN_TTL "access" now)
            let newRefreshToken := sign mac secret (buildJwtPayload user REFRESH_TOKEN_TTL "refresh" now)
            (TokenResult.ok (buildTokenResponse user newAccessToken newRefreshToken), kv)

/-- The single-character substitution of `password.replace(/ /g, '+')`. -/
def substSpace (c : Char) : Char := if c = ' ' then '+' else c

/-- JavaScript `password.includes(' ')` over the character list. -/
def containsSpace : List Char → Bool
  | [] => false
  | a :: rest => a == ' ' || containsSpace rest

/-- The `passwordToCheck` computation inlined in the password grant of
`handleToken`: if the password contains a space, replace every space by
a plus sign. -/
def passwordToCheckOf (password : String) : String :=
  if containsSpace password.data then String.mk (password.data.map substSpace) else password

/-- The `password` grant of `handleToken` in `src/api/auth.ts`. Device
registration on success is omitted: it never touches the account record
and does not influence the grant decision. -/
def handleTokenPassword (sha256hex : String → String)
    (mac : String → JwtClaims → String) (secret : String) (kv : KVStore)
    (now : Nat) (username : Option String) (password : String) : TokenResult :=
  let emailInput := username.getD ""
  if emailInput = "" then TokenResult.err 400 { error := "invalid_grant" }
  else
    let email := toLowerStr emailInput
    match getUser kv email with
    | none =>
      TokenResult.err 400 { error := "invalid_grant", error_description := some "Invalid username or password" }
    | some user =>
      let passwordToCheck := passwordToCheckOf password
      let incomingServerHash := hashPassword sha256hex passwordToCheck user.securityStamp
      if user.masterPasswordHash ≠ incomingServerHash then
        TokenResult.err 400 { error := "invalid_grant", error_description := some "Invalid username or password" }
      else
        let accessToken := sign mac secret (buildJwtPayload user ACCESS_TOKEN_TTL "access" now)
        let refreshToken := sign mac secret (buildJwtPayload user REFRESH_TOKEN_TTL "refresh" now)
        TokenResult.ok (buildTokenResponse user accessToken refreshToken)

/-- Request body of the finish-registration endpoint
(`FinishRegisterRequest`); `userAsymmetricKeys` is flattened into its two
members. -/
structure FinishRegisterBody where
  email : Option String := none
  masterPasswordHash : Option String := none
  userSymmetricKey : Option String := none
  kdf : Option Nat := none
  kdfIterations : Option Nat := none
  masterPasswordHint : Option String := none
  emailVerificationToken : Option Token := none
  publicKey : Option String := none
  encryptedPrivateKey : Option String := none
deriving DecidableEq

/-- Outcome of the finish-registration handler. -/
inductive RegisterResult where
  | err (e : ErrorResponse)
  | ok (id : String)
deriving DecidableEq

/-- `handleRegisterFinish` from `src/api/auth.ts`. `newUserId` and
`newSecurityStamp` are the two `crypto.randomUUID()` oracles, `nowIso`
the timestamp oracle. A verification token without an `email` claim makes
`(payload.email as string).toLowerCase()` throw, caught as an invalid
token. -/
def handleRegisterFinish (sha256hex : String → String)
    (mac : String → JwtClaims → String) (secret : String) (kv : KVStore)
    (now : Nat) (body : FinishRegisterBody)
    (newUserId newSecurityStamp nowIso : String) : RegisterResult × KVStore :=
  let email := toLowerStr (body.email.getD "")
  let masterHash := body.masterPasswordHash.getD ""
  let key := body.userSymmetricKey.getD ""
  if email = "" ∨ masterHash = "" ∨ key = "" then
    (RegisterResult.err
      { message := "Missing required fields (email, masterPasswordHash, userSymmetricKey)", status := 400 }, kv)
  else
    match body.emailVerificationToken with
    | none => (RegisterResult.err { message := "Email verification token required", status := 400 }, kv)
    | some emailToken =>
      match verify mac secret now emailToken with
      | none =>
        (RegisterResult.err { message := "Invalid or expired verification token", status := 400 }, kv)
      | some payload =>
        if payload.type ≠ some "registration" then
          (RegisterResult.err { message := "Invalid verification token type", status := 400 }, kv)
        else
          match payload.email with
          | none =>
            (RegisterResult.err { message := "Invalid or expired verification token", status := 400 }, kv)
          | some payloadEmail =>
            if toLowerStr payloadEmail ≠ email then
              (RegisterResult.err { message := "Token email mismatch", status := 400 }, kv)
            else
              match getUser kv email with
              | some _ => (RegisterResult.err { message := "User already exists", status := 400 }, kv)
              | none =>
                let newUser : UserData := {
                  id := newUserId
                  email := email
                  masterPasswordHash := hashPassword sha256hex masterHash newSecurityStamp
                  masterPasswordHint := body.masterPasswordHint
                  key := key
                  kdf := body.kdf.getD 0
                  kdfIterations := body.kdfIterations.getD 600000
                  name := payload.name.getD ""
                  publicKey := body.publicKey
                  encryptedPrivateKey := body.encryptedPrivateKey
                  securityStamp := newSecurityStamp
                  culture := "en-US"
                  emailVerified := true
                  createdAt := nowIso
                  updatedAt := nowIso }
                (RegisterResult.ok newUserId, putUser kv newUser)

/-- Vault item (`Cipher` in `src/types.ts`). The opaque encrypted
payloads (`login`, `card`, ..., `data`) are carried as optional strings. -/
structure Cipher where
  id : String
  type : Nat := 1
  organizationId : Option String := none
  folderId : Option String := none
  favorite : Bool := false
  reprompt : Nat := 0
  name : String := ""
  notes : Option String := none
  fields : Option String := none
  login : Option String := none
  card : Option String := none
  identity : Option String := none
  secureNote : Option String := none
  sshKey : Option String := none
  revisionDate : String := ""
  creationDate : String := ""
  deletedDate : Option String := none
  archivedDate : Option String := none
  key : Option String := none
  passwordHistory : Option String := none
  edit : Bool := true
  viewPassword : Bool := true
  organizationUseTotp : Bool := false
  data : Option String := none
  object : String := "cipher"
  attachments : Option String := none
  collectionIds : List String := []
deriving DecidableEq

/-- Folder (`Folder` in `src/types.ts`). -/
structure Folder where
  id : String
  name : String
  revisionDate : String
  object : String := "folder"
deriving DecidableEq

/-- Typed blob-store values: every write path of `src/storage/s3.ts`
serialises exactly one record type per key shape, so `json()` of a stored
object returns the stored record. -/
inductive BlobValue where
  | cipher (c : Cipher)
  | folder (f : Folder)
  | attachment (data : String)
deriving DecidableEq

/-- The blob object store (R2 / OSS) as an association list with
overwrite-on-put semantics. -/
abbrev Bucket := List (String × BlobValue)

/-- `bucket.get(key)`. -/
def bucketGet (b : Bucket) (key : String) : Option BlobValue := alistGet b key

/-- `bucket.put(key, value)`: overwrite any previous binding. -/
def bucketPut (b : Bucket) (key : String) (v : BlobValue) : Bucket :=
  alistPut b key v

/-- `bucket.delete(key)`. -/
def bucketDelete (b : Bucket) (key : String) : Bucket :=
  alistDelete b key

/-- `bucket.list({prefix})`: keys of the stored objects whose key starts
with the given string. -/
def bucketList (b : Bucket) (pre : String) : List String :=
  (b.filter (fun e => strStartsWith e.1 pre)).map (fun e => e.1)

/-- Key `vaults/{userId}/ciphers/{cipherId}.json` from `src/storage/s3.ts`. -/
def cipherKey (userId cipherId : String) : String :=
  "vaults/" ++ userId ++ "/ciphers/" ++ cipherId ++ ".json"

/-- The cipher list prefix of one account. -/
def cipherDir (userId : String) : String :=
  "vaults/" ++ userId ++ "/ciphers/"

/-- `getCipher` from `src/storage/s3.ts`. -/
def getCipher (b : Bucket) (userId cipherId : String) : Option Cipher :=
  match bucketGet b (cipherKey userId cipherId) with
  | some (BlobValue.cipher c) => some c
  | _ => none

/-- `putCipher` from `src/storage/s3.ts`: the object is stored under the
key derived from the cipher's own id. -/
def putCipher (b : Bucket) (userId : String) (c : Cipher) : Bucket :=
  bucketPut b (cipherKey userId c.id) (BlobValue.cipher c)

/-- `deleteCipher` from `src/storage/s3.ts`. -/
def deleteCipher (b : Bucket) (userId cipherId : String) : Bucket :=
  bucketDelete b (cipherKey userId cipherId)

/-- `listCiphers` from `src/storage/s3.ts`: list the account's cipher
prefix and fetch every object. -/
def listCiphers (b : Bucket) (userId : String) : List Cipher :=
  (bucketList b (cipherDir userId)).filterMap (fun k =>
    match bucketGet b k with
    | some (BlobValue.cipher c) => some c
    | _ => none)

/-- Key `vaults/{userId}/folders/{folderId}.json` from `src/storage/s3.ts`. -/
def folderKey (userId folderId : String) : String :=
  "vaults/" ++ userId ++ "/folders/" ++ folderId ++ ".json"

/-- The folder list prefix of one account. -/
def folderDir (userId : String) : String :=
  "vaults/" ++ userId ++ "/folders/"

/-- `putFolder` from `src/storage/s3.ts`. -/
def putFolder (b : Bucket) (userId : String) (f : Folder) : Bucket :=
  bucketPut b (folderKey userId f.id) (BlobValue.folder f)

/-- `listFolders` from `src/storage/s3.ts`. -/
def listFolders (b : Bucket) (userId : String) : List Folder :=
  (bucketList b (folderDir userId)).filterMap (fun k =>
    match bucketGet b k with
    | some (BlobValue.folder f) => some f
    | _ => none)

/-- The attachment prefix `vaults/{userId}/attachments/{cipherId}/`. -/
def attachmentDir (userId cipherId : String) : String :=
  "vaults/" ++ userId ++ "/attachments/" ++ cipherId ++ "/"

/-- `deleteAllAttachments` from `src/storage/s3.ts`: list the cipher's
attachment prefix and delete every listed key. -/
def deleteAllAttachments (b : Bucket) (userId cipherId : String) : Bucket :=
  (bucketList b (attachmentDir userId cipherId)).foldl
    (fun acc k => bucketDelete acc k) b

/-- Raw cipher request body (camelCase fields, as read by `buildCipher`
in `src/api/ciphers.ts`); an absent field is `none`. -/
structure CipherRequestBody where
  id : Option String := none
  type : Option Nat := none
  organizationId : Option String := none
  folderId : Option String := none
  favorite : Option Bool := none
  reprompt : Option Nat := none
  name : Option String := none
  notes : Option String := none
  fields : Option String := none
  login : Option String := none
  card : Option String := none
  identity : Option String := none
  secureNote : Option String := none
  sshKey : Option String := none
  archivedDate : Option String := none
  key : Option String := none
  passwordHistory : Option String := none
  data : Option String := none
  attachments : Option String := none
  collectionIds : Option (List String) := none
deriving DecidableEq

/-- `BuildCipherOptions` from `src/api/ciphers.ts`. -/
structure BuildCipherOptions where
  existing : Option Cipher := none
  id : Option String := none
  creationDate : Option String := none

/-- `buildCipher` from `src/api/ciphers.ts`. `now` is the timestamp
oracle and `genId` the `crypto.randomUUID()` oracle used when neither an
override id nor a body id is present. `deletedDate` is unconditionally
cleared. -/
def buildCipher (body : CipherRequestBody) (opts : BuildCipherOptions)
    (now genId : String) : Cipher :=
  { id := ((opts.id.orElse fun _ => body.id).getD genId)
    type := ((body.type.orElse fun _ => opts.existing.map fun e => e.type).getD 1)
    organizationId := body.organizationId
    folderId := body.folderId
    favorite := body.favorite.getD false
    reprompt := body.reprompt.getD 0
    name := body.name.getD ""
    notes := body.notes
    fields := body.fields
    login := body.login
    card := body.card
    identity := body.identity
    secureNote := body.secureNote
    sshKey := body.sshKey
    revisionDate := now
    creationDate := ((opts.creationDate.orElse fun _ => opts.existing.map fun e => e.creationDate).getD now)
    deletedDate := none
    archivedDate := body.archivedDate
    key := body.key
    passwordHistory := (body.passwordHistory.orElse fun _ => opts.existing.bind fun e => e.passwordHistory)
    edit := true
    viewPassword := true
    organizationUseTotp := false
    data := body.data
    object := "cipher"
    attachments := body.attachments
    collectionIds := body.collectionIds.getD [] }

/-- `validateCipher` from `src/api/ciphers.ts`. The source's
`type === undefined` branch is unreachable because `buildCipher` always
defaults the type, so only the name check remains observable. -/
def validateCipher (c : Cipher) : Option String :=
  if c.name = "" then some "Invalid cipher data: Name required" else none

/-- `handleUpdate` (PUT `/api/ciphers/:id`) from `src/api/ciphers.ts`:
read the existing object, rebuild the cipher, write the object, and add
an index entry only when no object existed before the update began.
Returns the response cipher, the bucket, and the KV store. -/
def handleUpdate (b : Bucket) (kv : KVStore) (userId cipherId : String)
    (body : CipherRequestBody) (now genId idxNow : String) :
    Cipher × Bucket × KVStore :=
  let existing := getCipher b userId cipherId
  let updatedCipher := buildCipher body { id := some cipherId, existing := existing } now genId
  let b' := putCipher b userId updatedCipher
  let kv' := if existing.isNone then addCipherToIndex kv userId cipherId idxNow else kv
  (updatedCipher, b', kv')

/-- `handleDelete` (DELETE `/api/ciphers/:id`) from `src/api/ciphers.ts`:
delete the attachments and the object, then remove the index entry. -/
def handleDelete (b : Bucket) (kv : KVStore) (userId cipherId : String)
    (idxNow : String) : Bucket × KVStore :=
  let b1 := deleteAllAttachments b userId cipherId
  let b2 := deleteCipher b1 userId cipherId
  (b2, removeCipherFromIndex kv userId cipherId idxNow)

/-- Outcome of the soft-delete / restore handlers. -/
inductive RestoreResult where
  | err (e : ErrorResponse)
  | ok (c : Cipher)
deriving DecidableEq

/-- `handleSoftDelete` (PUT `/api/ciphers/:id/delete`) from
`src/api/ciphers.ts`: stamp the tombstone and revision with now. -/
def handleSoftDelete (b : Bucket) (userId cipherId : String) (now : String) :
    RestoreResult × Bucket :=
  match getCipher b userId cipherId with
  | none => (RestoreResult.err { message := "Cipher not found", status := 404 }, b)
  | some cipher =>
    let cipher' := { cipher with deletedDate := some now, revisionDate := now }
    (RestoreResult.ok cipher', putCipher b userId cipher')

/-- `handleRestore` (PUT `/api/ciphers/:id/restore`) from
`src/api/ciphers.ts`: clear the tombstone, bump the revision. -/
def handleRestore (b : Bucket) (userId cipherId : String) (now : String) :
    RestoreResult × Bucket :=
  match getCipher b userId cipherId with
  | none => (RestoreResult.err { message := "Cipher not found", status := 404 }, b)
  | some cipher =>
    let cipher' := { cipher with deletedDate := none, revisionDate := now }
    (RestoreResult.ok cipher', putCipher b userId cipher')

/-- Profile projection built by `buildProfile` in `src/api/sync.ts`
(constant `false`/empty fields of the source that no claim mentions are
omitted; `emailVerified`, `premium` and `twoFactorEnabled` are kept as
the server-fixed values the spec names). -/
structure ProfileData where
  id : String
  name : String
  email : String
  emailVerified : Bool
  premium : Bool
  masterPasswordHint : Option String
  culture : String
  twoFactorEnabled : Bool
  key : String
  publicKey : Option String
  privateKey : Option String
  securityStamp : String
  creationDate : String
deriving DecidableEq

/-- `buildProfile` from `src/api/sync.ts`. -/
def buildProfile (u : UserData) : ProfileData :=
  { id := u.id
    name := u.name
    email := u.email
    emailVerified := true
    premium := true
    masterPasswordHint := u.masterPasswordHint
    culture := u.culture
    twoFactorEnabled := false
    key := u.key
    publicKey := u.publicKey
    privateKey := u.encryptedPrivateKey
    securityStamp := u.securityStamp
    creationDate := u.createdAt }

/-- One entry of the static `GLOBAL_EQUIVALENT_DOMAINS` table. -/
structure GlobalEquivalentDomainDef where
  type : Nat
  domains : List String
deriving DecidableEq

/-- One entry of the sync response's global domain view, annotated with
the per-account exclusion flag. -/
structure GlobalEquivalentDomain where
  type : Nat
  domains : List String
  excluded : Bool
deriving DecidableEq

/-- The sync payload (`SyncResponse`), with the domains sub-object
flattened into its two lists. -/
structure SyncResponse where
  profile : ProfileData
  folders : List Folder
  ciphers : List Cipher
  equivalentDomains : List (List String)
  globalEquivalentDomains : List GlobalEquivalentDomain
deriving DecidableEq

/-- Outcome of the sync handler. -/
inductive SyncResult where
  | err (e : ErrorResponse)
  | ok (resp : SyncResponse)
deriving DecidableEq

/-- The GET `/api/sync` handler from `src/api/sync.ts`. `userId` is the
`sub` claim and `email` the `email` claim of the middleware-validated
payload; `globalDomains` is the static table from
`src/constants/domains.ts` (its concrete rows decide nothing here). The
cipher and folder lists are read directly from the blob store; the
key-value store is consulted only for the account record. -/
def handleSync (globalDomains : List GlobalEquivalentDomainDef)
    (kv : KVStore) (b : Bucket) (userId email : String) : SyncResult :=
  match getUser kv email with
  | none => SyncResult.err { message := "User not found", status := 401 }
  | some user =>
    let excludedGlobalTypes := user.excludedGlobalEquivalentDomains.getD []
    SyncResult.ok
      { profile := buildProfile user
        folders := listFolders b userId
        ciphers := listCiphers b userId
        equivalentDomains := user.equivalentDomains.getD []
        globalEquivalentDomains := globalDomains.map fun g =>
          { type := g.type, domains := g.domains
            excluded := excludedGlobalTypes.contains g.type } }

/-- Key coherence of one account's cipher objects: an object stored under
the account's cipher prefix sits at the key derived from its own id.
`putCipher` is the only writer under this prefix and maintains this. -/
def cipherKeysCoherent (b : Bucket) (userId : String) : Prop :=
  ∀ k c, bucketGet b k = some (BlobValue.cipher c) →
    strStartsWith k (cipherDir userId) = true → k = cipherKey userId c.id

/-! Concrete fixtures used to witness the theorems below: an identity
digest stand-in, a constant MAC, one account, its KV store, and one
stored vault item. -/

/-- Concrete digest instance for witnesses (any function works; no claim
depends on the digest's internals). -/
def shaId : String → String := fun s => s

/-- Concrete MAC instance for witnesses. -/
def mac0 : String → JwtClaims → String := fun _ _ => "m"

/-- Concrete account fixture; its stored server-side hash is the one the
code would compute for client hash `pw` under stamp `st`. -/
def user1 : UserData :=
  { id := "u1"
    email := "a@x.com"
    masterPasswordHash := hashPassword shaId "pw" "st"
    key := "k"
    securityStamp := "st" }

/-- KV store holding exactly `user1`. -/
def kv1 : KVStore := putUser [] user1

/-- Valid password-change request body for `user1`. -/
def pwBody1 : PasswordChangeBody :=
  { masterPasswordHash := some "pw"
    newMasterPasswordHash := some "npw"
    key := some "nk" }

/-- Access token for `user1` issued at time 0. -/
def tok1 : Token := sign mac0 "s" (buildJwtPayload user1 ACCESS_TOKEN_TTL "access" 0)

/-- Refresh token for `user1` issued at time 0. -/
def tokRefresh1 : Token := sign mac0 "s" (buildJwtPayload user1 REFRESH_TOKEN_TTL "refresh" 0)

/-- Well-signed unexpired token naming an absent account. -/
def tokGhost : Token :=
  sign mac0 "s" { email := some "ghost@x.com", stamp := some "st", token_type := some "access", exp := 100 }

/-- Well-signed unexpired token for `user1` carrying a stale stamp. -/
def tokStale : Token :=
  sign mac0 "s" { email := some "a@x.com", stamp := some "old", token_type := some "access", exp := 100 }

/-- Tombstoned vault item fixture. -/
def cipher1 : Cipher :=
  { id := "c1"
    name := "Login1"
    revisionDate := "2024-01-01T00:00:00.000Z"
    creationDate := "2024-01-01T00:00:00.000Z"
    deletedDate := some "2024-02-01T00:00:00.000Z" }

/-- Bucket holding exactly `cipher1` for account `u1`. -/
def bucket1 : Bucket := putCipher [] "u1" cipher1

/-- Empty cipher request body (all fields absent). -/
def emptyCipherBody : CipherRequestBody := {}

/-- Valid registration verification token for email `A@x.com`. -/
def regTok1 : Token :=
  sign mac0 "s" { email := some "A@x.com", name := some "Al", type := some "registration", exp := 100 }

/-- Valid finish-registration body carrying `regTok1`. -/
def regBody1 : FinishRegisterBody :=
  { email := some "A@x.com"
    masterPasswordHash := some "mph"
    userSymmetricKey := some "usk"
    emailVerificationToken := some regTok1 }

/-! Store lemmas shared by the claim proofs. -/

theorem alistGet_put_self {α : Type} (l : List (String × α)) (k : String) (v : α) :
    alistGet (alistPut l k v) k = some v := by
  simp [alistPut, alistGet]

theorem alistGet_filter_ne {α : Type} (l : List (String × α)) (k k' : String)
    (h : k' ≠ k) :
    alistGet (l.filter fun e => e.1 != k) k' = alistGet l k' := by
  induction l with
  | nil => rfl
  | cons a rest ih =>
    obtain ⟨ka, va⟩ := a
    by_cases hk : ka = k
    · have hne : ¬ ka = k' := fun hh => h (hh ▸ hk)
      simp [List.filter_cons, hk, alistGet, hne, ih, Ne.symm h]
    · by_cases hq : ka = k'
      · simp [List.filter_cons, hk, alistGet, hq, h]
      · simp [List.filter_cons, hk, alistGet, hq, ih]

theorem alistGet_put_ne {α : Type} (l : List (String × α)) (k k' : String) (v : α)
    (h : k' ≠ k) :
    alistGet (alistPut l k v) k' = alistGet l k' := by
  simp only [alistPut, alistGet]
  rw [if_neg (fun hh => h hh.symm)]
  exact alistGet_filter_ne l k k' h

theorem alistGet_delete {α : Type} (l : List (String × α)) (k k' : String) :
    alistGet (alistDelete l k) k' = if k' = k then none else alistGet l k' := by
  by_cases h : k' = k
  · subst h
    simp only [if_pos rfl]
    induction l with
    | nil => rfl
    | cons a rest ih =>
      obtain ⟨ka, va⟩ := a
      by_cases hk : ka = k'
      · simp [alistDelete, List.filter_cons, hk, ih, alistGet] at ih ⊢
        exact ih
      · simp [alistDelete, List.filter_cons, hk, alistGet, ih] at ih ⊢
        exact ih
  · rw [if_neg h]
    exact alistGet_filter_ne l k k' h

theorem alistGet_foldl_delete_some {α : Type} (keys : List String)
    (l : List (String × α)) (k : String) (v : α)
    (h : alistGet (keys.foldl (fun acc kk => alistDelete acc kk) l) k = some v) :
    alistGet l k = some v := by
  induction keys generalizing l with
  | nil => exact h
  | cons kk rest ih =>
    have h2 := ih (alistDelete l kk) h
    rw [alistGet_delete] at h2
    by_cases hq : k = kk
    · rw [if_pos hq] at h2; exact absurd h2 (by simp)
    · rwa [if_neg hq] at h2

theorem getUser_putUser_self (kv : KVStore) (u : UserData) :
    getUser (putUser kv u) u.email = some u := by
  simp [getUser, putUser, kvGet, kvPut, alistGet_put_self]

/-- The account keys and the vault-index keys of the KV namespace are
disjoint. -/
theorem userKey_ne_vaultIndexKey (a b : String) :
    ("user:" ++ a) ≠ ("vault_index:" ++ b) := by
  intro h
  have h2 : ("user:" ++ a).data = ("vault_index:" ++ b).data := congrArg String.data h
  have ha : ("user:" ++ a).data = 'u' :: 's' :: 'e' :: 'r' :: ':' :: a.data := rfl
  have hb : ("vault_index:" ++ b).data =
      'v' :: 'a' :: 'u' :: 'l' :: 't' :: '_' :: 'i' :: 'n' :: 'd' :: 'e' :: 'x' :: ':' :: b.data := rfl
  rw [ha, hb] at h2
  injection h2 with h3 _
  exact absurd h3 (by decide)

theorem getUser_putVaultIndex (kv : KVStore) (userId : String) (idx : VaultIndex)
    (now email : String) :
    getUser (putVaultIndex kv userId idx now) email = getUser kv email := by
  unfold getUser putVaultIndex kvGet kvPut
  rw [alistGet_put_ne]
  exact userKey_ne_vaultIndexKey _ _

theorem getUser_addCipherToIndex (kv : KVStore) (userId cipherId now email : String) :
    getUser (addCipherToIndex kv userId cipherId now) email = getUser kv email := by
  unfold addCipherToIndex
  by_cases hmem : cipherId ∈ (getVaultIndex kv userId now).cipherIds
  · simp [hmem]
  · simp [hmem, getUser_putVaultIndex]

theorem getUser_removeCipherFromIndex (kv : KVStore) (userId cipherId now email : String) :
    getUser (removeCipherFromIndex kv userId cipherId now) email = getUser kv email := by
  unfold removeCipherFromIndex
  by_cases hmem : cipherId ∈ (getVaultIndex kv userId now).cipherIds
  · simp [hmem, getUser_putVaultIndex]
  · simp [hmem]

theorem cipherId_mem_addCipherToIndex (kv : KVStore) (userId cipherId now now' : String) :
    cipherId ∈ (getVaultIndex (addCipherToIndex kv userId cipherId now) userId now').cipherIds := by
  unfold addCipherToIndex getVaultIndex putVaultIndex kvGet kvPut
  cases hkv : alistGet kv ("vault_index:" ++ userId) with
  | none => simp [hkv, alistGet_put_self]
  | some v =>
    cases v with
    | user u => simp [hkv, alistGet_put_self]
    | index idx =>
      by_cases hmem : cipherId ∈ idx.cipherIds
      · simp [hkv, hmem]
      · simp [hkv, hmem, alistGet_put_self]

theorem mem_listCiphers (b : Bucket) (userId : String) (c : Cipher)
    (h : c ∈ listCiphers b userId) :
    ∃ k, strStartsWith k (cipherDir userId) = true ∧
      bucketGet b k = some (BlobValue.cipher c) := by
  unfold listCiphers at h
  rw [List.mem_filterMap] at h
  obtain ⟨k, hk, hf⟩ := h
  refine ⟨k, ?_, ?_⟩
  · unfold bucketList at hk
    rw [List.mem_map] at hk
    obtain ⟨e, he, hek⟩ := hk
    rw [List.mem_filter] at he
    rw [← hek]
    exact he.2
  · cases hbg : bucketGet b k with
    | none => rw [hbg] at hf; simp at hf
    | some v =>
      cases v with
      | cipher c' => rw [hbg] at hf; simp at hf; rw [hf]
      | folder f => rw [hbg] at hf; simp at hf
      | attachment d => rw [hbg] at hf; simp at hf

theorem bucketGet_deleteAllAttachments_some (b : Bucket) (userId cipherId k : String)
    (v : BlobValue) (h : bucketGet (deleteAllAttachments b userId cipherId) k = some v) :
    bucketGet b k = some v := by
  unfold deleteAllAttachments bucketDelete at h
  exact alistGet_foldl_delete_some _ b k v h

theorem verify_sign (mac : String → JwtClaims → String) (secret : String)
    (now : Nat) (pl : JwtClaims) (h : now ≤ pl.exp) :
    verify mac secret now (sign mac secret pl) = some pl := by
  simp [verify, sign, h]

theorem map_substSpace_of_not_contains (l : List Char)
    (h : containsSpace l = false) : l.map substSpace = l := by
  induction l with
  | nil => rfl
  | cons a rest ih =>
    rw [containsSpace] at h
    rw [Bool.or_eq_false_iff] at h
    have ha : ¬ a = ' ' := by
      intro hh
      rw [hh] at h
      simp at h
    simp [substSpace, ha, ih h.2]

theorem passwordToCheckOf_eq (p : String) :
    passwordToCheckOf p = String.mk (p.data.map substSpace) := by
  unfold passwordToCheckOf
  by_cases hc : containsSpace p.data = true
  · rw [if_pos hc]
  · have hf : containsSpace p.data = false := by simpa using hc
    rw [if_neg (by simp [hf]), map_substSpace_of_not_contains p.data hf]

/-- C8: restore is idempotent and total on existing items — restoring a
stored cipher succeeds, restoring it again succeeds the same way, and the
tombstone ends (and stays) cleared. -/
theorem restore_idempotent (b : Bucket) (userId cipherId : String) (c : Cipher)
    (t1 t2 : String) (h : getCipher b userId cipherId = some c)
    (hid : c.id = cipherId) :
    ((handleRestore b userId cipherId t1).1 =
        RestoreResult.ok { c with deletedDate := none, revisionDate := t1 }) ∧
    ((handleRestore (handleRestore b userId cipherId t1).2 userId cipherId t2).1 =
        RestoreResult.ok { c with deletedDate := none, revisionDate := t2 }) ∧
    (getCipher (handleRestore (handleRestore b userId cipherId t1).2 userId cipherId t2).2
        userId cipherId = some { c with deletedDate := none, revisionDate := t2 }) := by
  have h1 : handleRestore b userId cipherId t1 =
      (RestoreResult.ok { c with deletedDate := none, revisionDate := t1 },
        putCipher b userId { c with deletedDate := none, revisionDate := t1 }) := by
    simp [handleRestore, h]
  have hget2 : getCipher (putCipher b userId { c with deletedDate := none, revisionDate := t1 })
      userId cipherId = some { c with deletedDate := none, revisionDate := t1 } := by
    simp [getCipher, putCipher, bucketGet, bucketPut, hid, alistGet_put_self]
  have h2 : handleRestore (putCipher b userId { c with deletedDate := none, revisionDate := t1 })
      userId cipherId t2 =
      (RestoreResult.ok { c with deletedDate := none, revisionDate := t2 },
        putCipher (putCipher b userId { c with deletedDate := none, revisionDate := t1 })
          userId { c with deletedDate := none, revisionDate := t2 }) := by
    simp [handleRestore, hget2]
  refine ⟨by rw [h1], by rw [h1]; rw [h2], ?_⟩
  rw [h1]
  rw [h2]
  simp [getCipher, putCipher, bucketGet, bucketPut, hid, alistGet_put_self]

/-- C9: the update handler rebuilds the cipher with `deletedDate`
unconditionally null, so updating an existing (possibly tombstoned)
cipher stores it with the tombstone cleared — a trashed item is silently
restored by an update. -/
theorem update_clears_tombstone (b : Bucket) (kv : KVStore)
    (userId cipherId : String) (body : CipherRequestBody)
    (now genId idxNow : String) (c : Cipher)
    (h : getCipher b userId cipherId = some c) :
    ((handleUpdate b kv userId cipherId body now genId idxNow).1.deletedDate = none) ∧
    ((handleUpdate b kv userId cipherId body now genId idxNow).1.id = cipherId) ∧
    (getCipher (handleUpdate b kv userId cipherId body now genId idxNow).2.1 userId cipherId =
        some (handleUpdate b kv userId cipherId body now genId idxNow).1) := by
  refine ⟨rfl, ?_, ?_⟩
  · simp [handleUpdate, buildCipher, Option.orElse]
  · simp [handleUpdate, getCipher, putCipher, bucketGet, bucketPut, buildCipher,
      Option.orElse, alistGet_put_self]

/-- C5: the cipher update writes the object and touches the vault index
only when no object for the id existed before the update began; when the
object already existed the key-value store is returned untouched. -/
theorem update_index_only_when_object_missing (b : Bucket) (kv : KVStore)
    (userId cipherId : String) (body : CipherRequestBody)
    (now genId idxNow : String) :
    ((getCipher b userId cipherId).isSome = true →
        (handleUpdate b kv userId cipherId body now genId idxNow).2.2 = kv) ∧
    (getCipher b userId cipherId = none →
        (handleUpdate b kv userId cipherId body now genId idxNow).2.2 =
          addCipherToIndex kv userId cipherId idxNow ∧
        cipherId ∈ (getVaultIndex
            (handleUpdate b kv userId cipherId body now genId idxNow).2.2
            userId idxNow).cipherIds) ∧
    ((handleUpdate b kv userId cipherId body now genId idxNow).2.1 =
        putCipher b userId (handleUpdate b kv userId cipherId body now genId idxNow).1) := by
  refine ⟨?_, ?_, rfl⟩
  · intro hs
    cases hex : getCipher b userId cipherId with
    | none => rw [hex] at hs; simp at hs
    | some c => simp [handleUpdate, hex]
  · intro hn
    refine ⟨by simp [handleUpdate, hn], ?_⟩
    simp only [handleUpdate, hn, Option.isNone_none, if_pos]
    exact cipherId_mem_addCipherToIndex kv userId cipherId idxNow idxNow

/-- C10: in the password grant every space of the submitted password is
replaced by a plus sign before the server-side hash comparison, so two
passwords with the same space-to-plus normalization are accepted or
rejected identically. -/
theorem password_grant_space_plus_normalization (sha256hex : String → String)
    (mac : String → JwtClaims → String) (secret : String) (kv : KVStore)
    (now : Nat) (username : Option String) (p1 p2 : String)
    (hnorm : p1.data.map substSpace = p2.data.map substSpace) :
    (containsSpace p1.data = true →
        passwordToCheckOf p1 = String.mk (p1.data.map substSpace)) ∧
    handleTokenPassword sha256hex mac secret kv now username p1 =
      handleTokenPassword sha256hex mac secret kv now username p2 := by
  constructor
  · intro _
    exact passwordToCheckOf_eq p1
  · unfold handleTokenPassword
    rw [passwordToCheckOf_eq p1, passwordToCheckOf_eq p2, hnorm]

theorem handleTokenRefresh_valid (mac : String → JwtClaims → String)
    (secret : String) (kv : KVStore) (now issued : Nat) (u : UserData)
    (hu : getUser kv u.email = some u) (hexp : now ≤ issued + REFRESH_TOKEN_TTL) :
    handleTokenRefresh mac secret kv now
        (sign mac secret (buildJwtPayload u REFRESH_TOKEN_TTL "refresh" issued)) =
      (TokenResult.ok (buildTokenResponse u
        (sign mac secret (buildJwtPayload u ACCESS_TOKEN_TTL "access" now))
        (sign mac secret (buildJwtPayload u REFRESH_TOKEN_TTL "refresh" now))), kv) := by
  have hv := verify_sign mac secret now (buildJwtPayload u REFRESH_TOKEN_TTL "refresh" issued)
    (by simpa [buildJwtPayload] using hexp)
  unfold handleTokenRefresh
  rw [hv]
  simp [buildJwtPayload, hu]

/-- C6: a valid refresh-token grant issues a fresh access/refresh pair,
leaves the key-value store (hence the account record and its revocation
stamp) unchanged in every branch, and any other refresh token carrying
the account's current stamp still validates against the post-grant
store. -/
theorem refresh_grant_preserves_account (mac : String → JwtClaims → String)
    (secret : String) (kv : KVStore) (now issued1 issued2 : Nat)
    (u : UserData) (t : Token)
    (hu : getUser kv u.email = some u)
    (hexp2 : now ≤ issued2 + REFRESH_TOKEN_TTL) :
    ((handleTokenRefresh mac secret kv now t).2 = kv) ∧
    (t = sign mac secret (buildJwtPayload u REFRESH_TOKEN_TTL "refresh" issued1) →
        now ≤ issued1 + REFRESH_TOKEN_TTL →
        (handleTokenRefresh mac secret kv now t).1 =
          TokenResult.ok (buildTokenResponse u
            (sign mac secret (buildJwtPayload u ACCESS_TOKEN_TTL "access" now))
            (sign mac secret (buildJwtPayload u REFRESH_TOKEN_TTL "refresh" now)))) ∧
    ((handleTokenRefresh mac secret (handleTokenRefresh mac secret kv now t).2 now
        (sign mac secret (buildJwtPayload u REFRESH_TOKEN_TTL "refresh" issued2))).1 =
      TokenResult.ok (buildTokenResponse u
        (sign mac secret (buildJwtPayload u ACCESS_TOKEN_TTL "access" now))
        (sign mac secret (buildJwtPayload u REFRESH_TOKEN_TTL "refresh" now)))) := by
  have hframe : (handleTokenRefresh mac secret kv now t).2 = kv := by
    unfold handleTokenRefresh
    repeat' split
    all_goals rfl
  refine ⟨hframe, ?_, ?_⟩
  · intro ht hexp1
    subst ht
    rw [handleTokenRefresh_valid mac secret kv now issued1 u hu hexp1]
  · rw [hframe]
    rw [handleTokenRefresh_valid mac secret kv now issued2 u hu hexp2]

/-- C7: a finish-registration request with a valid verification assertion
fails with a 400 conflict and leaves the store untouched when the
normalized email already has an account, and otherwise creates exactly
one account carrying the freshly generated security stamp. -/
theorem register_finish_conflict_or_create (sha256hex : String → String)
    (mac : String → JwtClaims → String) (secret : String) (kv : KVStore)
    (now : Nat) (body : FinishRegisterBody)
    (newUserId newSecurityStamp nowIso : String) (tok : Token) (p : JwtClaims)
    (pe : String)
    (hne : toLowerStr (body.email.getD "") ≠ "")
    (hmh : body.masterPasswordHash.getD "" ≠ "")
    (hk : body.userSymmetricKey.getD "" ≠ "")
    (htok : body.emailVerificationToken = some tok)
    (hver : verify mac secret now tok = some p)
    (htype : p.type = some "registration")
    (hpe : p.email = some pe)
    (hbind : toLowerStr pe = toLowerStr (body.email.getD "")) :
    (∀ u, getUser kv (toLowerStr (body.email.getD "")) = some u →
        handleRegisterFinish sha256hex mac secret kv now body newUserId newSecurityStamp nowIso =
          (RegisterResult.err { message := "User already exists", status := 400 }, kv)) ∧
    (getUser kv (toLowerStr (body.email.getD "")) = none →
        ∃ newUser : UserData,
          handleRegisterFinish sha256hex mac secret kv now body newUserId newSecurityStamp nowIso =
            (RegisterResult.ok newUserId, putUser kv newUser) ∧
          newUser.securityStamp = newSecurityStamp ∧
          newUser.email = toLowerStr (body.email.getD "") ∧
          getUser (putUser kv newUser) (toLowerStr (body.email.getD "")) = some newUser) := by
  constructor
  · intro u hu
    simp [handleRegisterFinish, hne, hmh, hk, htok, hver, htype, hpe, hbind, hu]
  · intro hn
    refine ⟨{ id := newUserId
              email := toLowerStr (body.email.getD "")
              masterPasswordHash :=
                hashPassword sha256hex (body.masterPasswordHash.getD "") newSecurityStamp
              masterPasswordHint := body.masterPasswordHint
              key := body.userSymmetricKey.getD ""
              kdf := body.kdf.getD 0
              kdfIterations := body.kdfIterations.getD 600000
              name := p.name.getD ""
              publicKey := body.publicKey
              encryptedPrivateKey := body.encryptedPrivateKey
              securityStamp := newSecurityStamp
              culture := "en-US"
              emailVerified := true
              createdAt := nowIso
              updatedAt := nowIso }, ?_, rfl, rfl, ?_⟩
    · simp [handleRegisterFinish, hne, hmh, hk, htok, hver, htype, hpe, hbind, hn]
    · exact getUser_putUser_self kv _

/-- C2 (amended): the access middleware rejects a token with a bad
signature or an expired one through the JWT library's 401 exception, and
rejects a token naming a missing account or carrying a stale stamp with
its own 401 response; the token class is not among the checks. -/
theorem middleware_rejection_cases (mac : String → JwtClaims → String)
    (secret : String) (kv : KVStore) (now : Nat) (token : Token) :
    (token.sig ≠ mac secret token.payload →
        createJwtMiddleware mac secret kv now token = MwResult.jwtException) ∧
    (token.payload.exp < now →
        createJwtMiddleware mac secret kv now token = MwResult.jwtException) ∧
    (∀ p e, verify mac secret now token = some p → p.email = some e → e ≠ "" →
        getUser kv e = none →
        createJwtMiddleware mac secret kv now token =
          MwResult.reject 401
            { error := "invalid_token", error_description := some "User not found" }) ∧
    (∀ p e u, verify mac secret now token = some p → p.email = some e → e ≠ "" →
        getUser kv e = some u → p.stamp ≠ some u.securityStamp →
        createJwtMiddleware mac secret kv now token =
          MwResult.reject 401
            { error := "invalid_token", error_description := some "Token has been revoked" }) := by
  refine ⟨?_, ?_, ?_, ?_⟩
  · intro h
    simp [createJwtMiddleware, verify, h]
  · intro h
    have h2 : ¬ now ≤ token.payload.exp := Nat.not_le.mpr h
    simp [createJwtMiddleware, verify, h2]
  · intro p e hv he hne hg
    simp [createJwtMiddleware, hv, he, hne, hg]
  · intro p e u hv he hne hg hst
    simp [createJwtMiddleware, hv, he, hne, hg, hst]

/-- C2 counterexample: a well-signed, unexpired refresh-class token with
a matching stamp passes the access middleware — the wrong-class case of
the claim does not cause a rejection. -/
theorem middleware_accepts_refresh_class :
    createJwtMiddleware mac0 "s" kv1 0 tokRefresh1 =
      MwResult.ok (buildJwtPayload user1 REFRESH_TOKEN_TTL "refresh" 0) ∧
    (buildJwtPayload user1 REFRESH_TOKEN_TTL "refresh" 0).token_type = some "refresh" := by
  constructor
  · decide
  · decide

/-- C4 (amended): every middleware-level validation failure shares the
generic `invalid_token` error code with status 401, and every refresh
grant failure shares the generic `invalid_grant` code with status 400 —
but the `error_description` member still differs per internal cause. -/
theorem validation_failures_share_error_code (mac : String → JwtClaims → String)
    (secret : String) (kv : KVStore) (now : Nat) (token : Token) :
    (∀ st bd, createJwtMiddleware mac secret kv now token = MwResult.reject st bd →
        st = 401 ∧ bd.error = "invalid_token") ∧
    (∀ st bd, (handleTokenRefresh mac secret kv now token).1 = TokenResult.err st bd →
        st = 400 ∧ bd.error = "invalid_grant") := by
  constructor
  · intro st bd h
    unfold createJwtMiddleware at h
    split at h
    · simp at h
    · split at h
      · cases h
        exact ⟨rfl, rfl⟩
      · split at h
        · cases h
          exact ⟨rfl, rfl⟩
        · split at h
          · cases h
            exact ⟨rfl, rfl⟩
          · split at h
            · cases h
              exact ⟨rfl, rfl⟩
            · simp at h
  · intro st bd h
    unfold handleTokenRefresh at h
    split at h
    · simp at h
      obtain ⟨h1, h2⟩ := h
      exact ⟨h1.symm, by rw [← h2]⟩
    · split at h
      · simp at h
        obtain ⟨h1, h2⟩ := h
        exact ⟨h1.symm, by rw [← h2]⟩
      · split at h
        · simp at h
          obtain ⟨h1, h2⟩ := h
          exact ⟨h1.symm, by rw [← h2]⟩
        · split at h
          · simp at h
            obtain ⟨h1, h2⟩ := h
            exact ⟨h1.symm, by rw [← h2]⟩
          · split at h
            · simp at h
              obtain ⟨h1, h2⟩ := h
              exact ⟨h1.symm, by rw [← h2]⟩
            · simp at h

/-- C4 counterexample: a missing-account failure and a stamp-mismatch
failure return different response bodies — `error_description` names the
internal cause, so the bodies are not equal. -/
theorem validation_failure_bodies_differ :
    createJwtMiddleware mac0 "s" kv1 0 tokGhost =
      MwResult.reject 401
        { error := "invalid_token", error_description := some "User not found" } ∧
    createJwtMiddleware mac0 "s" kv1 0 tokStale =
      MwResult.reject 401
        { error := "invalid_token", error_description := some "Token has been revoked" } ∧
    ({ error := "invalid_token", error_description := some "User not found" } : OAuthError) ≠
      { error := "invalid_token", error_description := some "Token has been revoked" } := by
  refine ⟨by decide, by decide, by decide⟩

theorem passwordChange_ok (sha256hex : String → String) (kv : KVStore)
    (u : UserData) (body : PasswordChangeBody) (newStamp nowIso : String)
    (hu : getUser kv u.email = some u)
    (hcur : u.masterPasswordHash =
        hashPassword sha256hex (body.masterPasswordHash.getD "undefined") u.securityStamp)
    (hnh : body.newMasterPasswordHash.getD "" ≠ "")
    (hnk : body.key.getD "" ≠ "") :
    handlePasswordChange sha256hex kv u.email body newStamp nowIso =
      (PasswordChangeResult.ok, putUser kv (pwUpdatedUser sha256hex u body newStamp nowIso)) := by
  simp [handlePasswordChange, hu, ← hcur, hnh, hnk, pwUpdatedUser]

theorem pwUpdatedUser_email (sha256hex : String → String) (u : UserData)
    (body : PasswordChangeBody) (newStamp nowIso : String) :
    (pwUpdatedUser sha256hex u body newStamp nowIso).email = u.email := rfl

theorem pwUpdatedUser_stamp (sha256hex : String → String) (u : UserData)
    (body : PasswordChangeBody) (newStamp nowIso : String) :
    (pwUpdatedUser sha256hex u body newStamp nowIso).securityStamp = newStamp := rfl

/-- C1: a successful password change rotates the account's security stamp
to the (fresh) new value, and afterwards any token issued under the old
stamp — of either class — is rejected by both the access middleware and
the refresh grant. -/
theorem password_change_invalidates_tokens (sha256hex : String → String)
    (mac : String → JwtClaims → String) (secret : String) (kv : KVStore)
    (u : UserData) (body : PasswordChangeBody) (newStamp nowIso : String)
    (issuedAt ttl now : Nat) (cls : String)
    (hu : getUser kv u.email = some u)
    (hcur : u.masterPasswordHash =
        hashPassword sha256hex (body.masterPasswordHash.getD "undefined") u.securityStamp)
    (hnh : body.newMasterPasswordHash.getD "" ≠ "")
    (hnk : body.key.getD "" ≠ "")
    (hstamp : newStamp ≠ u.securityStamp)
    (hexp : now ≤ issuedAt + ttl) :
    ((handlePasswordChange sha256hex kv u.email body newStamp nowIso).1 =
        PasswordChangeResult.ok) ∧
    (∃ u', getUser (handlePasswordChange sha256hex kv u.email body newStamp nowIso).2 u.email =
        some u' ∧ u'.securityStamp = newStamp) ∧
    (∀ p, createJwtMiddleware mac secret
        (handlePasswordChange sha256hex kv u.email body newStamp nowIso).2 now
        (sign mac secret (buildJwtPayload u ttl cls issuedAt)) ≠ MwResult.ok p) ∧
    (∀ resp, (handleTokenRefresh mac secret
        (handlePasswordChange sha256hex kv u.email body newStamp nowIso).2 now
        (sign mac secret (buildJwtPayload u ttl cls issuedAt))).1 ≠ TokenResult.ok resp) := by
  have hr := passwordChange_ok sha256hex kv u body newStamp nowIso hu hcur hnh hnk
  have hg : getUser (putUser kv (pwUpdatedUser sha256hex u body newStamp nowIso)) u.email =
      some (pwUpdatedUser sha256hex u body newStamp nowIso) := by
    have h0 := getUser_putUser_self kv (pwUpdatedUser sha256hex u body newStamp nowIso)
    rwa [pwUpdatedUser_email] at h0
  have hv := verify_sign mac secret now (buildJwtPayload u ttl cls issuedAt)
    (by simpa [buildJwtPayload] using hexp)
  have hpe : (buildJwtPayload u ttl cls issuedAt).email = some u.email := rfl
  have hps : (buildJwtPayload u ttl cls issuedAt).stamp = some u.securityStamp := rfl
  have htt : (buildJwtPayload u ttl cls issuedAt).token_type = some cls := rfl
  have hsne : u.securityStamp ≠ newStamp := fun hh => hstamp hh.symm
  refine ⟨by rw [hr], ?_, ?_, ?_⟩
  · refine ⟨pwUpdatedUser sha256hex u body newStamp nowIso, ?_, pwUpdatedUser_stamp _ _ _ _ _⟩
    rw [hr]
    exact hg
  · intro p hc
    rw [hr] at hc
    by_cases hue : u.email = ""
    · simp [createJwtMiddleware, hv, hpe, hue] at hc
    · simp [createJwtMiddleware, hv, hpe, hue, hg, hps, pwUpdatedUser_stamp, hsne] at hc
  · intro resp hc
    rw [hr] at hc
    by_cases hcls : cls = "refresh"
    · subst hcls
      simp [handleTokenRefresh, hv, htt, hpe, hg, hps, pwUpdatedUser_stamp, hsne] at hc
    · simp [handleTokenRefresh, hv, htt, hcls] at hc

/-- C3: the sync payload's cipher and folder lists are exactly the blob
store listings under the account's prefixes; the vault index in the
key-value store never affects the response. An orphan index entry (index
add landed, object write failed) yields no phantom item, and after a hard
delete the item is absent from sync whether or not the index-removal step
completed. -/
theorem sync_reads_blob_store_only (gd : List GlobalEquivalentDomainDef)
    (kv kv2 : KVStore) (b : Bucket) (userId email X idxNow : String) :
    (∀ resp, handleSync gd kv b userId email = SyncResult.ok resp →
        resp.ciphers = listCiphers b userId ∧ resp.folders = listFolders b userId) ∧
    (getUser kv email = getUser kv2 email →
        handleSync gd kv b userId email = handleSync gd kv2 b userId email) ∧
    (getUser (addCipherToIndex kv userId X idxNow) email = getUser kv email) ∧
    (∀ resp, (∀ c ∈ listCiphers b userId, c.id ≠ X) →
        handleSync gd (addCipherToIndex kv userId X idxNow) b userId email =
          SyncResult.ok resp →
        ∀ c ∈ resp.ciphers, c.id ≠ X) ∧
    (getUser (handleDelete b kv userId X idxNow).2 email = getUser kv email) ∧
    (cipherKeysCoherent b userId →
        ∀ c ∈ listCiphers (handleDelete b kv userId X idxNow).1 userId, c.id ≠ X) := by
  refine ⟨?_, ?_, ?_, ?_, ?_, ?_⟩
  · intro resp h
    unfold handleSync at h
    cases hg : getUser kv email with
    | none => rw [hg] at h; simp at h
    | some user =>
      rw [hg] at h
      simp only [SyncResult.ok.injEq] at h
      rw [← h]
      exact ⟨rfl, rfl⟩
  · intro h
    unfold handleSync
    rw [h]
  · exact getUser_addCipherToIndex kv userId X idxNow email
  · intro resp hfresh h
    unfold handleSync at h
    cases hg : getUser (addCipherToIndex kv userId X idxNow) email with
    | none => rw [hg] at h; simp at h
    | some user =>
      rw [hg] at h
      simp only [SyncResult.ok.injEq] at h
      intro c hc
      rw [← h] at hc
      exact hfresh c hc
  · exact getUser_removeCipherFromIndex kv userId X idxNow email
  · intro hcoh c hc
    obtain ⟨k, hpre, hget2⟩ := mem_listCiphers _ userId c hc
    have hdel := alistGet_delete (deleteAllAttachments b userId X) (cipherKey userId X) k
    unfold handleDelete deleteCipher bucketDelete bucketGet at hget2
    rw [hdel] at hget2
    by_cases hkx : k = cipherKey userId X
    · rw [if_pos hkx] at hget2
      exact absurd hget2 (by simp)
    · rw [if_neg hkx] at hget2
      have hget0 : bucketGet b k = some (BlobValue.cipher c) :=
        bucketGet_deleteAllAttachments_some b userId X k _ hget2
      have hkey := hcoh k c hget0 hpre
      intro hid
      rw [hid] at hkey
      exact hkx hkey

theorem bucket1_coherent : cipherKeysCoherent bucket1 "u1" := by
  intro k c hget hpre
  have hb : bucket1 = [(cipherKey "u1" "c1", BlobValue.cipher cipher1)] := by decide
  rw [hb] at hget
  unfold bucketGet alistGet at hget
  by_cases hk : cipherKey "u1" "c1" = k
  · rw [if_pos hk] at hget
    have hc1 : c = cipher1 := by
      injection hget with h1
      injection h1 with h2
      exact h2.symm
    rw [hc1, ← hk]
    rfl
  · rw [if_neg hk] at hget
    simp [alistGet] at hget

/-- Witness for C1 at concrete inputs. -/
theorem password_change_invalidates_tokens_witness :
    getUser kv1 user1.email = some user1 ∧
    (handlePasswordChange shaId kv1 user1.email pwBody1 "st2" "t1").1 = PasswordChangeResult.ok ∧
    createJwtMiddleware mac0 "s" (handlePasswordChange shaId kv1 user1.email pwBody1 "st2" "t1").2 5
        (sign mac0 "s" (buildJwtPayload user1 ACCESS_TOKEN_TTL "access" 0)) ≠
      MwResult.ok (buildJwtPayload user1 ACCESS_TOKEN_TTL "access" 0) := by
  have h := password_change_invalidates_tokens shaId mac0 "s" kv1 user1 pwBody1 "st2" "t1"
    0 ACCESS_TOKEN_TTL 5 "access" (by decide) (by decide) (by decide) (by decide)
    (by decide) (by decide)
  exact ⟨by decide, h.1, h.2.2.1 (buildJwtPayload user1 ACCESS_TOKEN_TTL "access" 0)⟩

/-- Witness for C2 (amended) at concrete inputs. -/
theorem middleware_rejection_cases_witness :
    verify mac0 "s" 0 tokGhost = some tokGhost.payload ∧
    getUser kv1 "ghost@x.com" = none ∧
    createJwtMiddleware mac0 "s" kv1 0 tokGhost =
      MwResult.reject 401 { error := "invalid_token", error_description := some "User not found" } := by
  refine ⟨by decide, by decide, ?_⟩
  exact (middleware_rejection_cases mac0 "s" kv1 0 tokGhost).2.2.1 tokGhost.payload "ghost@x.com"
    (by decide) (by decide) (by decide) (by decide)

/-- Witness for C3 at concrete inputs. -/
theorem sync_reads_blob_store_only_witness :
    cipherKeysCoherent bucket1 "u1" ∧
    getUser (addCipherToIndex kv1 "u1" "c1" "t0") "a@x.com" = getUser kv1 "a@x.com" ∧
    cipher1 ∉ listCiphers (handleDelete bucket1 kv1 "u1" "c1" "t0").1 "u1" := by
  have h := sync_reads_blob_store_only [] kv1 kv1 bucket1 "u1" "a@x.com" "c1" "t0"
  refine ⟨bucket1_coherent, h.2.2.1, fun hmem => ?_⟩
  exact h.2.2.2.2.2 bucket1_coherent cipher1 hmem rfl

/-- Witness for C4 (amended) at concrete inputs. -/
theorem validation_failures_share_error_code_witness :
    createJwtMiddleware mac0 "s" kv1 0 tokStale =
      MwResult.reject 401
        { error := "invalid_token", error_description := some "Token has been revoked" } ∧
    (401 = 401 ∧
      ({ error := "invalid_token", error_description := some "Token has been revoked" } :
        OAuthError).error = "invalid_token") := by
  refine ⟨by decide, ?_⟩
  exact (validation_failures_share_error_code mac0 "s" kv1 0 tokStale).1 401
    { error := "invalid_token", error_description := some "Token has been revoked" } (by decide)

/-- Witness for C5 at concrete inputs: one update on an existing object,
one upsert on a missing one. -/
theorem update_index_only_when_object_missing_witness :
    (getCipher bucket1 "u1" "c1").isSome = true ∧
    (handleUpdate bucket1 kv1 "u1" "c1" emptyCipherBody "t1" "g1" "t0").2.2 = kv1 ∧
    getCipher bucket1 "u1" "c9" = none ∧
    (handleUpdate bucket1 kv1 "u1" "c9" emptyCipherBody "t1" "g1" "t0").2.2 =
      addCipherToIndex kv1 "u1" "c9" "t0" := by
  refine ⟨by decide, ?_, by decide, ?_⟩
  · exact (update_index_only_when_object_missing bucket1 kv1 "u1" "c1" emptyCipherBody
      "t1" "g1" "t0").1 (by decide)
  · exact ((update_index_only_when_object_missing bucket1 kv1 "u1" "c9" emptyCipherBody
      "t1" "g1" "t0").2.1 (by decide)).1

/-- Witness for C6 at concrete inputs. -/
theorem refresh_grant_preserves_account_witness :
    getUser kv1 user1.email = some user1 ∧
    (handleTokenRefresh mac0 "s" kv1 0 tokRefresh1).2 = kv1 ∧
    (handleTokenRefresh mac0 "s" (handleTokenRefresh mac0 "s" kv1 0 tokRefresh1).2 0
        (sign mac0 "s" (buildJwtPayload user1 REFRESH_TOKEN_TTL "refresh" 7))).1 =
      TokenResult.ok (buildTokenResponse user1
        (sign mac0 "s" (buildJwtPayload user1 ACCESS_TOKEN_TTL "access" 0))
        (sign mac0 "s" (buildJwtPayload user1 REFRESH_TOKEN_TTL "refresh" 0))) := by
  have h := refresh_grant_preserves_account mac0 "s" kv1 0 0 7 user1 tokRefresh1
    (by decide) (by decide)
  exact ⟨by decide, h.1, h.2.2⟩

/-- Witness for C7 at concrete inputs: the conflict branch on an
already-registered email. -/
theorem register_finish_conflict_or_create_witness :
    getUser kv1 (toLowerStr (regBody1.email.getD "")) = some user1 ∧
    handleRegisterFinish shaId mac0 "s" kv1 0 regBody1 "nid" "nst" "t1" =
      (RegisterResult.err { message := "User already exists", status := 400 }, kv1) := by
  have h := register_finish_conflict_or_create shaId mac0 "s" kv1 0 regBody1 "nid" "nst" "t1"
    regTok1 regTok1.payload "A@x.com" (by decide) (by decide) (by decide) (by decide)
    (by decide) (by decide) (by decide) (by decide)
  exact ⟨by decide, h.1 user1 (by decide)⟩

/-- Witness for C8 at concrete inputs: double restore of a tombstoned
item. -/
theorem restore_idempotent_witness :
    getCipher bucket1 "u1" "c1" = some cipher1 ∧
    (handleRestore bucket1 "u1" "c1" "t1").1 =
      RestoreResult.ok { cipher1 with deletedDate := none, revisionDate := "t1" } ∧
    (handleRestore (handleRestore bucket1 "u1" "c1" "t1").2 "u1" "c1" "t2").1 =
      RestoreResult.ok { cipher1 with deletedDate := none, revisionDate := "t2" } := by
  have h := restore_idempotent bucket1 "u1" "c1" cipher1 "t1" "t2" (by decide) (by decide)
  exact ⟨by decide, h.1, h.2.1⟩

/-- Witness for C9 at concrete inputs: updating a tombstoned item clears
the tombstone. -/
theorem update_clears_tombstone_witness :
    getCipher bucket1 "u1" "c1" = some cipher1 ∧
    cipher1.deletedDate = some "2024-02-01T00:00:00.000Z" ∧
    (handleUpdate bucket1 kv1 "u1" "c1" emptyCipherBody "t1" "g1" "t0").1.deletedDate = none := by
  have h := update_clears_tombstone bucket1 kv1 "u1" "c1" emptyCipherBody "t1" "g1" "t0"
    cipher1 (by decide)
  exact ⟨by decide, by decide, h.1⟩

/-- Witness for C10 at concrete inputs: a password with a space and its
plus-sign form give the same grant outcome. -/
theorem password_grant_space_plus_normalization_witness :
    ("a b".data.map substSpace = "a+b".data.map substSpace) ∧
    handleTokenPassword shaId mac0 "s" kv1 0 (some "a@x.com") "a b" =
      handleTokenPassword shaId mac0 "s" kv1 0 (some "a@x.com") "a+b" := by
  have h := password_grant_space_plus_normalization shaId mac0 "s" kv1 0 (some "a@x.com")
    "a b" "a+b" (by decide)
  exact ⟨by decide, h.2⟩

end NanoVault
